import Mathlib

/-!
Verification of the Scarcity protocol core against its specification.

This file is a shallow embedding of the TypeScript sources:
`src/crypto.ts` (the `Crypto` class bundled in `src/types.ts`), `src/token.ts`
(`ScarceToken`), `src/gossip.ts` (`NullifierGossip`, both versions present in
the repository), `src/validator.ts` (`TransferValidator`) and
`src/integrations/freebird.ts` (`FreebirdAdapter`, both the MPC-aggregation
version and the sequential-failover version present in the repository).

Modelling conventions:
* Byte arrays (`Uint8Array`) are `List Nat` with entries below 256.
* JavaScript numbers used as timestamps are `Int` (they are compared and
  subtracted, and differences may be negative); counters and amounts are `Nat`.
* Floating-point confidence arithmetic is modelled over `ℚ`.
* Network calls (`witness.verify`, `witness.checkNullifier`, the Freebird
  HTTP requests, `freebird.blind`, ...) are passed in as explicit oracle
  functions / response data, so every stateful method becomes a pure function
  from the old state and the oracle outcomes to the new state and result.
* `Date.now()` becomes an explicit `now` argument.
* SHA-256 (the `sha256` import from `@noble/hashes`) is implemented in full
  (FIPS 180-4) over byte lists.
-/

namespace Scarcity

/-- Byte strings: lists of naturals below 256 (`Uint8Array` in the source). -/
abbrev Bytes := List Nat

namespace Crypto

/-! ### SHA-256 (the `sha256` primitive imported from `@noble/hashes/sha256`) -/

/-- Right rotation on 32-bit words (naturals below `2^32`). -/
def rotr32 (n x : Nat) : Nat :=
  ((x >>> n) ||| (x <<< (32 - n))) % 2 ^ 32

/-- SHA-256 `Ch` function. -/
def ch32 (x y z : Nat) : Nat :=
  (x &&& y) ^^^ ((x ^^^ 0xffffffff) &&& z)

/-- SHA-256 `Maj` function. -/
def maj32 (x y z : Nat) : Nat :=
  (x &&& y) ^^^ (x &&& z) ^^^ (y &&& z)

/-- SHA-256 big sigma 0. -/
def bigSigma0 (x : Nat) : Nat := rotr32 2 x ^^^ rotr32 13 x ^^^ rotr32 22 x

/-- SHA-256 big sigma 1. -/
def bigSigma1 (x : Nat) : Nat := rotr32 6 x ^^^ rotr32 11 x ^^^ rotr32 25 x

/-- SHA-256 small sigma 0. -/
def smallSigma0 (x : Nat) : Nat := rotr32 7 x ^^^ rotr32 18 x ^^^ (x >>> 3)

/-- SHA-256 small sigma 1. -/
def smallSigma1 (x : Nat) : Nat := rotr32 17 x ^^^ rotr32 19 x ^^^ (x >>> 10)

/-- SHA-256 round constants. -/
def sha256K : List Nat :=
  [1116352408, 1899447441, 3049323471, 3921009573, 961987163,
   1508970993, 2453635748, 2870763221, 3624381080, 310598401,
   607225278, 1426881987, 1925078388, 2162078206, 2614888103,
   3248222580, 3835390401, 4022224774, 264347078, 604807628,
   770255983, 1249150122, 1555081692, 1996064986, 2554220882,
   2821834349, 2952996808, 3210313671, 3336571891, 3584528711,
   113926993, 338241895, 666307205, 773529912, 1294757372,
   1396182291, 1695183700, 1986661051, 2177026350, 2456956037,
   2730485921, 2820302411, 3259730800, 3345764771, 3516065817,
   3600352804, 4094571909, 275423344, 430227734, 506948616,
   659060556, 883997877, 958139571, 1322822218, 1537002063,
   1747873779, 1955562222, 2024104815, 2227730452, 2361852424,
   2428436474, 2756734187, 3204031479, 3329325298]

/-- SHA-256 initial hash value. -/
def sha256H0 : List Nat :=
  [1779033703, 3144134277, 1013904242, 2773480762,
   1359893119, 2600822924, 528734635, 1541459225]

/-- Big-endian 8-byte encoding of a natural number (wraps modulo `2^64`),
the semantics of `DataView.setBigUint64(_, _, false)`. -/
def be64 (n : Nat) : Bytes :=
  [(n >>> 56) % 256, (n >>> 48) % 256, (n >>> 40) % 256, (n >>> 32) % 256,
   (n >>> 24) % 256, (n >>> 16) % 256, (n >>> 8) % 256, n % 256]

/-- SHA-256 message padding. -/
def padMessage (msg : Bytes) : Bytes :=
  msg ++ [0x80] ++ List.replicate ((119 - msg.length % 64) % 64) 0
      ++ be64 (msg.length * 8)

/-- Group bytes into big-endian 32-bit words. -/
def bytesToWords : Bytes → List Nat
  | b0 :: b1 :: b2 :: b3 :: rest =>
      (b0 <<< 24 ||| b1 <<< 16 ||| b2 <<< 8 ||| b3) :: bytesToWords rest
  | _ => []

/-- Serialize 32-bit words as big-endian bytes. -/
def wordsToBytes (ws : List Nat) : Bytes :=
  ws.foldr (fun w acc =>
    (w >>> 24) % 256 :: (w >>> 16) % 256 :: (w >>> 8) % 256 :: w % 256 :: acc) []

/-- Split a list into chunks of 64 elements (structural recursion on a fuel
bound so that the definition reduces inside the kernel). -/
def chunk64Aux : Nat → List Nat → List (List Nat)
  | 0, _ => []
  | _, [] => []
  | fuel + 1, x :: rest => (x :: rest).take 64 :: chunk64Aux fuel ((x :: rest).drop 64)

/-- Split a list into chunks of 64 elements. -/
def chunk64 (l : List Nat) : List (List Nat) := chunk64Aux l.length l

/-- Extend a 16-word block to the 64-word SHA-256 message schedule. -/
def schedule (block : List Nat) : List Nat :=
  (List.range 48).foldl (fun w _ =>
    let n := w.length
    w ++ [(smallSigma1 (w.getD (n - 2) 0) + w.getD (n - 7) 0 +
           smallSigma0 (w.getD (n - 15) 0) + w.getD (n - 16) 0) % 2 ^ 32])
    block

/-- One SHA-256 round on the working variables `[a,b,c,d,e,f,g,h]`. -/
def sha256Round (s : List Nat) (k w : Nat) : List Nat :=
  let a := s.getD 0 0
  let b := s.getD 1 0
  let c := s.getD 2 0
  let d := s.getD 3 0
  let e := s.getD 4 0
  let f := s.getD 5 0
  let g := s.getD 6 0
  let h := s.getD 7 0
  let t1 := (h + bigSigma1 e + ch32 e f g + k + w) % 2 ^ 32
  let t2 := (bigSigma0 a + maj32 a b c) % 2 ^ 32
  [(t1 + t2) % 2 ^ 32, a, b, c, (d + t1) % 2 ^ 32, e, f, g]

/-- SHA-256 compression of one 16-word block into the running state. -/
def processBlock (st : List Nat) (block : List Nat) : List Nat :=
  let w := schedule block
  let fin := (List.range 64).foldl
    (fun s t => sha256Round s (sha256K.getD t 0) (w.getD t 0)) st
  List.zipWith (fun x y => (x + y) % 2 ^ 32) st fin

/-- Full SHA-256 over a byte string (FIPS 180-4). -/
def sha256 (msg : Bytes) : Bytes :=
  wordsToBytes ((chunk64 (padMessage msg)).foldl
    (fun st blk => processBlock st (bytesToWords blk)) sha256H0)

/-! ### Encodings used by `Crypto.hash` -/

/-- UTF-8 encoding of one Unicode code point (`TextEncoder` semantics). -/
def utf8Char (c : Nat) : Bytes :=
  if c < 0x80 then [c]
  else if c < 0x800 then
    [0xC0 ||| (c >>> 6), 0x80 ||| (c &&& 0x3F)]
  else if c < 0x10000 then
    [0xE0 ||| (c >>> 12), 0x80 ||| ((c >>> 6) &&& 0x3F), 0x80 ||| (c &&& 0x3F)]
  else
    [0xF0 ||| (c >>> 18), 0x80 ||| ((c >>> 12) &&& 0x3F),
     0x80 ||| ((c >>> 6) &&& 0x3F), 0x80 ||| (c &&& 0x3F)]

/-- UTF-8 encoding of a string (`new TextEncoder().encode(s)`). -/
def utf8Bytes (s : String) : Bytes :=
  s.data.foldr (fun c acc => utf8Char c.toNat ++ acc) []

/-- The union type `Uint8Array | string | number` accepted by `Crypto.hash`. -/
inductive HashInput where
  | bytes (b : Bytes)
  | str (s : String)
  | num (n : Nat)

/-- Per-input encoding performed by `Crypto.hash`: strings are UTF-8 encoded,
numbers are written as big-endian unsigned 64-bit integers
(`DataView.setBigUint64(0, BigInt(input), false)`), byte arrays pass through. -/
def encodeInput : HashInput → Bytes
  | .bytes b => b
  | .str s => utf8Bytes s
  | .num n => be64 n

/-- Embeds `Crypto.hash(...inputs)` from `src/crypto.ts`: SHA-256 of the
concatenation of the encoded inputs. -/
def hash (inputs : List HashInput) : Bytes :=
  sha256 ((inputs.map encodeInput).foldr (· ++ ·) [])

/-- Embeds `Crypto.generateNullifier(secret, tokenId, timestamp)` from
`src/crypto.ts`: `hash(secret, tokenId, timestamp)`. -/
def generateNullifier (secret : Bytes) (tokenId : String) (timestamp : Nat) :
    Bytes :=
  hash [.bytes secret, .str tokenId, .num timestamp]

/-- Embeds `Crypto.constantTimeEqual(a, b)` from `src/crypto.ts`: length check, then
OR-accumulate the XOR of corresponding bytes and compare the result with 0. -/
def constantTimeEqual (a b : Bytes) : Bool :=
  if a.length ≠ b.length then false
  else ((List.zipWith Nat.xor a b).foldl Nat.lor 0) == 0

/-- Lowercase hex digit of a value below 16. -/
def hexChar (n : Nat) : Char :=
  if n < 10 then Char.ofNat (48 + n) else Char.ofNat (87 + n)

/-- Embeds `Crypto.toHex(bytes)`: lowercase hex encoding, two digits per byte. -/
def toHex (bytes : Bytes) : String :=
  ⟨bytes.foldr (fun b acc => hexChar (b / 16) :: hexChar (b % 16) :: acc) []⟩

/-- Embeds `Crypto.hashTransferPackage(pkg)` from `src/crypto.ts`:
`toHex(hash(tokenId, amount, commitment, nullifier))`. -/
def hashTransferPackage (tokenId : String) (amount : Nat)
    (commitment nullifier : Bytes) : String :=
  toHex (hash [.str tokenId, .num amount, .bytes commitment, .bytes nullifier])

end Crypto

/-! ### Data model (`src/types.ts`) -/

/-- The `Attestation` record from `src/types.ts`. The optional `raw` field (typed `any`
in the source and never read by the code verified here) is omitted. -/
structure Attestation where
  hash : String
  timestamp : Int
  signatures : List String
  witnessIds : List String
deriving DecidableEq, Repr

/-- The `TransferPackage` record from `src/types.ts`. -/
structure TransferPackage where
  tokenId : String
  amount : Nat
  commitment : Bytes
  nullifier : Bytes
  proof : Attestation
  ownershipProof : Option Bytes
deriving DecidableEq, Repr

/-- The tag of a `GossipMessage` (`'nullifier' | 'ping' | 'pong'`). -/
inductive GossipType where
  | nullifier
  | ping
  | pong
deriving DecidableEq, Repr

/-- The `GossipMessage` record from `src/types.ts`. -/
structure GossipMessage where
  type : GossipType
  nullifier : Option Bytes
  proof : Option Attestation
  timestamp : Int
deriving DecidableEq, Repr

/-- A `PeerConnection` as the gossip module observes it: its id and the value
its `isConnected()` method returns. (`send` is modelled by listing the
recipients of a broadcast.) -/
structure PeerConnection where
  id : String
  connected : Bool
deriving DecidableEq, Repr

/-- The `NullifierRecord` record from `src/gossip.ts`. -/
structure NullifierRecord where
  nullifier : Bytes
  proof : Attestation
  firstSeen : Int
  peerCount : Nat
deriving DecidableEq, Repr

/-- The mutable state of a `NullifierGossip` instance: the `seenNullifiers`
map (an association list keyed by nullifier hex, preserving the insertion
order of a JavaScript `Map`) and the `peerConnections` array. -/
structure GossipState where
  seenNullifiers : List (String × NullifierRecord)
  peerConnections : List PeerConnection
deriving DecidableEq, Repr

namespace NullifierGossip

/-- The recipients of `broadcast(message)`: every connected peer
(`peerConnections.filter(peer => peer.isConnected())`). -/
def broadcastTargets (g : GossipState) : List String :=
  (g.peerConnections.filter (·.connected)).map (·.id)

/-- Embeds `NullifierGossip.publish(nullifier, proof)` from `src/gossip.ts` (the two
versions of the file in the repository have byte-identical bodies for this
method). `now` stands for `Date.now()`. On success the new state and the
broadcast message are returned; a seen nullifier throws. -/
def publish (g : GossipState) (nullifier : Bytes) (proof : Attestation)
    (now : Int) : Except String (GossipState × GossipMessage) :=
  let key := Crypto.toHex nullifier
  if (g.seenNullifiers.lookup key).isSome then
    .error "Double-spend detected! Nullifier already published."
  else
    .ok ({ g with seenNullifiers :=
             g.seenNullifiers ++
               [(key, ⟨nullifier, proof, now, 1⟩)] },
         ⟨GossipType.nullifier, some nullifier, some proof, now⟩)

/-- Embeds `NullifierGossip.checkNullifier(nullifier)` from the current
`src/gossip.ts`: 0 when the key is absent, otherwise
`min(peerCount / max(peerConnections.length, 1), 1.0)`. -/
def checkNullifier (g : GossipState) (nullifier : Bytes) : ℚ :=
  match g.seenNullifiers.lookup (Crypto.toHex nullifier) with
  | none => 0
  | some record =>
      min ((record.peerCount : ℚ) / (max g.peerConnections.length 1 : ℚ)) 1

/-- Embeds `NullifierGossip.checkNullifier(nullifier)` from the second version of
`gossip.ts` bundled in the repository: the peer-count confidence is combined
with an age-based confidence `min((now - firstSeen) / 10_000, 1.0)` by `max`. -/
def checkNullifier_v2 (g : GossipState) (nullifier : Bytes) (now : Int) : ℚ :=
  match g.seenNullifiers.lookup (Crypto.toHex nullifier) with
  | none => 0
  | some record =>
      let peerConfidence :=
        min ((record.peerCount : ℚ) / (max g.peerConnections.length 1 : ℚ)) 1
      let ageConfidence := min (((now - record.firstSeen : Int) : ℚ) / 10000) 1
      max peerConfidence ageConfidence

/-- Embeds `NullifierGossip.onReceive(data)` from `src/gossip.ts` (both bundled
versions have byte-identical bodies for this method). `verify` is the oracle
for `witness.verify(data.proof)`, `now` stands for `Date.now()`. Returns the
new state together with the recipients of the epidemic rebroadcast (empty
when nothing was broadcast). The user `receiveHandler` carries no state of
its own and is omitted. -/
def onReceive (g : GossipState) (verify : Attestation → Bool)
    (data : GossipMessage) (now : Int) : GossipState × List String :=
  match data.type, data.nullifier, data.proof with
  | GossipType.nullifier, some nullifier, some proof =>
      if ¬ verify proof then (g, [])
      else
        let key := Crypto.toHex nullifier
        match g.seenNullifiers.lookup key with
        | none =>
            ({ g with seenNullifiers :=
                 g.seenNullifiers ++ [(key, ⟨nullifier, proof, now, 1⟩)] },
             broadcastTargets g)
        | some _ =>
            ({ g with seenNullifiers :=
                 g.seenNullifiers.map fun p =>
                   if p.1 = key then
                     (p.1, { p.2 with peerCount := p.2.peerCount + 1 })
                   else p },
             [])
  | _, _, _ => (g, [])

end NullifierGossip

/-! ### Token lifecycle engine (`src/token.ts`) -/

/-- The state of a `ScarceToken` instance: the immutable `id`, `amount` and
`secret` fields and the mutable `spent` flag. -/
structure TokenState where
  id : String
  amount : Nat
  secret : Bytes
  spent : Bool
deriving DecidableEq, Repr

namespace ScarceToken

/-- Embeds `ScarceToken.transfer(to)` from `src/token.ts`, following the `HEAD` side
of the unresolved merge conflict in that file (the side that derives the
nullifier with `Crypto.generateNullifier(secret, id, timestamp)`; the other
side uses `Crypto.hash(secret, id)` and the `Scarbuck` naming).

`blind`, `ownershipProof` and `witnessTimestamp` are oracles for
`freebird.blind(to)`, `freebird.createOwnershipProof(secret)` and
`witness.timestamp(pkgHash)`; each may fail, as the corresponding awaited
call may throw. `g` is the gossip state on which `gossip.publish` runs, and
`now` stands for `Date.now()`. On success the token with `spent := true`,
the updated gossip state and the returned transfer package are produced;
any failure leaves the caller with the original, unspent token state. -/
def transfer (tk : TokenState)
    (blind : Bytes → Except String Bytes)
    (ownershipProof : Bytes → Except String Bytes)
    (witnessTimestamp : String → Except String Attestation)
    (g : GossipState) (recipient : Bytes) (now : Nat) :
    Except String (TokenState × GossipState × TransferPackage) :=
  if tk.spent then .error "Token already spent"
  else
    let nullifier := Crypto.generateNullifier tk.secret tk.id now
    match blind recipient with
    | .error e => .error e
    | .ok commitment =>
      match ownershipProof tk.secret with
      | .error e => .error e
      | .ok oproof =>
        let pkgHash :=
          Crypto.hashTransferPackage tk.id tk.amount commitment nullifier
        match witnessTimestamp pkgHash with
        | .error e => .error e
        | .ok proof =>
          match NullifierGossip.publish g nullifier proof now with
          | .error e => .error e
          | .ok (g2, _msg) =>
            .ok ({ tk with spent := true }, g2,
                 ⟨tk.id, tk.amount, commitment, nullifier, proof, some oproof⟩)

end ScarceToken

/-! ### Transfer validator (`src/validator.ts`)

The file carries an unresolved merge conflict; the definitions below follow
the `e2fb2463…` side (the one with the rolling validity window, the
`DOUBLE_SPEND_THRESHOLD = 0.5` gossip threshold and the `peers/10` peer
score), which the repository README and the rest of the spec adopt. The
reason strings of the source interpolate floating-point values, so rejection
reasons are modelled by the tags below. -/

/-- The tier that produced a `ValidationResult` (the source's `reason`
strings, with their numeric interpolations dropped). -/
inductive VReason where
  /-- Reason string "Token expired. Proof age exceeds limit." -/
  | expired
  /-- Reason strings "Double-spend detected in gossip network" and
      "Double-spend detected in gossip" (fast path). -/
  | doubleSpendGossip
  /-- Reason string "Double-spend proven by Witness federation". -/
  | doubleSpendWitness
  /-- Reason string "Invalid Witness attestation". -/
  | invalidAttestation
  /-- Reason string "Double-spend detected during propagation wait". -/
  | doubleSpendWait
  /-- Reason strings "Confidence below threshold" and "Insufficient
      confidence without wait period" (fast path). -/
  | belowThreshold
  /-- Reason strings "Transfer validated successfully" and "Fast validation
      passed". -/
  | accepted
deriving DecidableEq, Repr

/-- The `ValidationResult` record from `src/types.ts`. -/
structure ValidationResult where
  valid : Bool
  confidence : ℚ
  reason : VReason
deriving DecidableEq, Repr

/-- The `ConfidenceParams` record from `src/types.ts`. -/
structure ConfidenceParams where
  gossipPeers : Nat
  witnessDepth : Nat
  waitTime : Nat
deriving DecidableEq, Repr

namespace TransferValidator

/-- The configuration fields of a `TransferValidator` instance. -/
structure Config where
  waitTime : Nat
  minConfidence : ℚ
  maxTokenAge : Nat
deriving DecidableEq, Repr

/-- The `TransferValidator` constructor: `waitTime ?? 5000`,
`minConfidence ?? 0.7`, `maxTokenAge ?? 24 * 24 * 24 * 3600 * 1000`. -/
def mkConfig (waitTime : Option Nat) (minConfidence : Option ℚ)
    (maxTokenAge : Option Nat) : Config :=
  ⟨waitTime.getD 5000, minConfidence.getD (7 / 10),
   maxTokenAge.getD (24 * 24 * 24 * 3600 * 1000)⟩

/-- Embeds `getWitnessFederationDepth()`: the source returns the constant 3. -/
def getWitnessFederationDepth : Nat := 3

/-- Embeds `TransferValidator.computeConfidence(params)` from `src/validator.ts`
(`e2fb2463…` conflict side: peer score `min(gossipPeers / 10, 0.5)`). -/
def computeConfidence (params : ConfidenceParams) : ℚ :=
  let peerScore := min ((params.gossipPeers : ℚ) / 10) (1 / 2)
  let witnessScore := min ((params.witnessDepth : ℚ) / 3) (3 / 10)
  let timeScore := min ((params.waitTime : ℚ) / 10000) (1 / 5)
  peerScore + witnessScore + timeScore

/-- Embeds `TransferValidator.validateTransfer(pkg)` from `src/validator.ts`
(`e2fb2463…` conflict side).

`g` is the gossip state at the initial check and `gWait` the gossip state
after the propagation wait (the two snapshots of the same live
`NullifierGossip` before and after the `sleep`; with `waitTime = 0` the wait
is skipped and `gWait` is not consulted for the re-check). `witnessCheck`
and `witnessVerify` are oracles for `witness.checkNullifier` and
`witness.verify`, and `now` stands for `Date.now()`. -/
def validateTransfer (cfg : Config) (g gWait : GossipState)
    (witnessCheck : Bytes → ℚ) (witnessVerify : Attestation → Bool)
    (pkg : TransferPackage) (now : Int) : ValidationResult :=
  let age := now - pkg.proof.timestamp
  if age > (cfg.maxTokenAge : Int) then ⟨false, 0, .expired⟩
  else
    let gossipConfidence := NullifierGossip.checkNullifier g pkg.nullifier
    if gossipConfidence > 1 / 2 then ⟨false, 0, .doubleSpendGossip⟩
    else
      let witnessConfidence := witnessCheck pkg.nullifier
      if witnessConfidence > 0 then ⟨false, 0, .doubleSpendWitness⟩
      else if ¬ witnessVerify pkg.proof then ⟨false, 0, .invalidAttestation⟩
      else if 0 < cfg.waitTime ∧
          NullifierGossip.checkNullifier gWait pkg.nullifier > 1 / 2 then
        ⟨false, 0, .doubleSpendWait⟩
      else
        let gScore := if 0 < cfg.waitTime then gWait else g
        let confidence := computeConfidence
          ⟨gScore.peerConnections.length, getWitnessFederationDepth,
           cfg.waitTime⟩
        if confidence < cfg.minConfidence then
          ⟨false, confidence, .belowThreshold⟩
        else ⟨true, confidence, .accepted⟩

/-- Embeds `TransferValidator.fastValidate(pkg)` from `src/validator.ts` (this
method is outside the merge conflict and identical on both sides): a gossip
check rejecting on any positive confidence, then `witness.verify`, then the
confidence score with `waitTime: 0`. -/
def fastValidate (cfg : Config) (g : GossipState)
    (witnessVerify : Attestation → Bool) (pkg : TransferPackage) :
    ValidationResult :=
  let gossipConfidence := NullifierGossip.checkNullifier g pkg.nullifier
  if gossipConfidence > 0 then ⟨false, 0, .doubleSpendGossip⟩
  else if ¬ witnessVerify pkg.proof then ⟨false, 0, .invalidAttestation⟩
  else
    let confidence := computeConfidence
      ⟨g.peerConnections.length, getWitnessFederationDepth, 0⟩
    if confidence ≥ cfg.minConfidence then ⟨true, confidence, .accepted⟩
    else ⟨false, confidence, .belowThreshold⟩

end TransferValidator

/-! ### Freebird adapter (`src/integrations/freebird.ts`)

The repository holds two versions of `FreebirdAdapter.issueToken`: the file
under `src/integrations/` broadcasts to all issuers in parallel and
aggregates (MPC mode), while the other bundled version tries the issuers
sequentially and returns the first DLEQ-verified token. Both are embedded.
The HTTP exchange of one issuer is captured by an `IssuerReply` (what the
adapter observes of the response), and DLEQ verification — which depends on
the issuer's advertised public key — by the `dleq` oracle. -/

namespace FreebirdAdapter

/-- What `issueToken` observes of one issuer: whether `this.metadata` has an
entry for its URL, and the parsed reply — `none` when the fetch threw or the
response was not 2xx, otherwise the decoded token bytes together with the
optional `data.index` field. -/
structure IssuerReply where
  hasMetadata : Bool
  response : Option (Bytes × Option Nat)
deriving DecidableEq, Repr

/-- The per-issuer attempt shared by both `issueToken` versions: skip issuers
without metadata, failed requests, tokens that are not 130 bytes long, and
tokens whose DLEQ proof does not verify against that issuer's key. On
success, yield the token bytes and the server index `data.index ?? pos + 1`. -/
def attempt (dleq : String → Bytes → Bool) (pos : Nat)
    (url : String) (reply : IssuerReply) : Option (Bytes × Nat) :=
  if ¬ reply.hasMetadata then none
  else match reply.response with
    | none => none
    | some (tokenBytes, dataIndex) =>
        if tokenBytes.length ≠ 130 then none
        else if ¬ dleq url tokenBytes then none
        else some (tokenBytes, dataIndex.getD (pos + 1))

/-- The fallback token `Crypto.hash(blindedValue, 'ISSUED')`. -/
def fallbackToken (blindedValue : Bytes) : Bytes :=
  Crypto.hash [.bytes blindedValue, .str "ISSUED"]

/-- The sequential `for (const url of this.issuerEndpoints)` loop of the
failover version of `issueToken`: each failing attempt `continue`s to the
next issuer, the first successful attempt returns its verified token, and
falling off the loop throws. -/
def issueLoop (dleq : String → Bytes → Bool) :
    Nat → List (String × IssuerReply) → Except String Bytes
  | _, [] => .error "All configured issuers failed to issue token"
  | pos, (url, reply) :: rest =>
      match attempt dleq pos url reply with
      | some (tokenBytes, _) => .ok tokenBytes
      | none => issueLoop dleq (pos + 1) rest

/-- Embeds `FreebirdAdapter.issueToken(blindedValue)`, sequential-failover version
(bundled in the repository alongside the MPC version): when at least one
issuer answered the metadata probe (`metadata.size > 0`) and blind state is
stored for the blinded value, try each issuer in configured order and return
the first DLEQ-verified 130-byte token, or throw when all fail; otherwise
return the fallback token. -/
def issueToken_seq (metadataNonempty stateExists : Bool)
    (issuers : List (String × IssuerReply)) (dleq : String → Bytes → Bool)
    (blindedValue : Bytes) : Except String Bytes :=
  if metadataNonempty ∧ stateExists then issueLoop dleq 0 issuers
  else .ok (fallbackToken blindedValue)

/-- The successful responses among the per-issuer attempts starting at
position `pos`, in issuer order (`Promise.all` preserves the input order, and
`results.filter(r => r.success)` keeps it). -/
def collectValid (dleq : String → Bytes → Bool) :
    Nat → List (String × IssuerReply) → List (Bytes × Nat)
  | _, [] => []
  | pos, (url, reply) :: rest =>
      match attempt dleq pos url reply with
      | some r => r :: collectValid dleq (pos + 1) rest
      | none => collectValid dleq (pos + 1) rest

/-- The `validResponses` array of the MPC version of `issueToken`: for each
successful issuer, the full 130-byte token and the server index. -/
def validResponses (dleq : String → Bytes → Bool)
    (issuers : List (String × IssuerReply)) : List (Bytes × Nat) :=
  collectValid dleq 0 issuers

/-- Embeds `FreebirdAdapter.issueToken(blindedValue)` from
`src/integrations/freebird.ts` (the MPC-aggregation version): broadcast to
all issuers in parallel; with no valid response the internal throw is caught
and the fallback token is returned; with a single configured issuer and a
single valid response the raw token is returned; otherwise the evaluated
points (token bytes 33..66) are aggregated by `voprf.aggregate` — vendor
code not present in the repository snapshot, supplied here as the
`aggregate` oracle — and the token is reassembled as
`A (33 bytes) ‖ aggregated point ‖ 64 zero bytes`. -/
def issueToken_mpc (metadataNonempty stateExists : Bool)
    (issuers : List (String × IssuerReply)) (dleq : String → Bytes → Bool)
    (aggregate : List (Nat × Bytes) → Bytes) (blindedValue : Bytes) :
    Except String Bytes :=
  if metadataNonempty ∧ stateExists then
    match validResponses dleq issuers with
    | [] => .ok (fallbackToken blindedValue)
    | (firstToken, _) :: _ =>
        if issuers.length = 1 ∧ (validResponses dleq issuers).length = 1 then
          .ok firstToken
        else
          .ok (firstToken.take 33 ++
               aggregate ((validResponses dleq issuers).map
                 fun r => (r.2, (r.1.drop 33).take 33)) ++
               List.replicate 64 0)
  else .ok (fallbackToken blindedValue)

end FreebirdAdapter

end Scarcity

/-! ## Theorems -/

namespace Scarcity

set_option maxRecDepth 40000

/-- Sanity check of the SHA-256 embedding: the digest of the empty input is
the FIPS 180-4 test vector `e3b0c442…52b855`. -/
theorem sha256_empty_testVector :
    Crypto.sha256 [] =
      [227, 176, 196, 66, 152, 252, 28, 20,
       154, 251, 244, 200, 153, 111, 185, 36,
       39, 174, 65, 228, 100, 155, 147, 76,
       164, 149, 153, 27, 120, 82, 184, 85] := by
  decide

/-- Sanity check of the SHA-256 embedding: the digest of `"abc"` is the
FIPS 180-4 test vector `ba7816bf…f20015ad`. -/
theorem sha256_abc_testVector :
    Crypto.sha256 (Crypto.utf8Bytes "abc") =
      [186, 120, 22, 191, 143, 1, 207, 234,
       65, 65, 64, 222, 93, 174, 34, 35,
       176, 3, 97, 163, 150, 23, 122, 156,
       180, 16, 255, 97, 242, 0, 21, 173] := by
  decide

/-- Bitwise-or of naturals is zero exactly when both sides are zero. -/
theorem lor_eq_zero_iff (x y : Nat) : x ||| y = 0 ↔ x = 0 ∧ y = 0 := by
  constructor
  · intro h
    have hb : ∀ i, (x.testBit i || y.testBit i) = false := by
      intro i
      rw [← Nat.testBit_lor, h]
      exact Nat.zero_testBit i
    constructor
    · refine Nat.eq_of_testBit_eq fun i => ?_
      rw [Nat.zero_testBit]
      exact (Bool.or_eq_false_iff.mp (hb i)).1
    · refine Nat.eq_of_testBit_eq fun i => ?_
      rw [Nat.zero_testBit]
      exact (Bool.or_eq_false_iff.mp (hb i)).2
  · rintro ⟨rfl, rfl⟩
    rfl

/-- Or-accumulation over a list is zero exactly when the accumulator and all
elements are zero. -/
theorem foldl_lor_eq_zero (l : List Nat) (x : Nat) :
    l.foldl Nat.lor x = 0 ↔ x = 0 ∧ ∀ y ∈ l, y = 0 := by
  induction l generalizing x with
  | nil => simp
  | cons h t ih =>
      rw [List.foldl_cons, ih]
      constructor
      · rintro ⟨hxh, hall⟩
        obtain ⟨hx, hh⟩ := (lor_eq_zero_iff x h).mp hxh
        refine ⟨hx, fun y hy => ?_⟩
        rcases List.mem_cons.mp hy with rfl | hy
        · exact hh
        · exact hall y hy
      · rintro ⟨hx, hall⟩
        refine ⟨(lor_eq_zero_iff x h).mpr
          ⟨hx, hall h (List.mem_cons_self h t)⟩, fun y hy => ?_⟩
        exact hall y (List.mem_cons_of_mem h hy)

/-- Two equal-length byte lists agree exactly when every pairwise xor is
zero. -/
theorem zipWith_xor_all_zero :
    ∀ (a b : Bytes), a.length = b.length →
      ((∀ z ∈ List.zipWith Nat.xor a b, z = 0) ↔ a = b)
  | [], [], _ => by simp
  | [], _ :: _, h => by simp at h
  | _ :: _, [], h => by simp at h
  | x :: xs, y :: ys, h => by
      have ih := zipWith_xor_all_zero xs ys (by simpa using h)
      simp only [List.zipWith_cons_cons, List.mem_cons, List.cons.injEq]
      constructor
      · intro hall
        have hx : x ^^^ y = 0 := hall _ (Or.inl rfl)
        exact ⟨Nat.xor_eq_zero.mp hx, ih.mp fun z hz => hall z (Or.inr hz)⟩
      · rintro ⟨rfl, rfl⟩
        intro z hz
        rcases hz with rfl | hz
        · exact Nat.xor_eq_zero.mpr rfl
        · exact (ih.mpr rfl) z hz

/-- C10: `Crypto.constantTimeEqual(a, b)` returns `true` exactly when the two
byte arrays have the same length and are equal byte for byte, i.e. exactly
when they are equal as byte strings. -/
theorem C10_constantTimeEqual (a b : Bytes) :
    Crypto.constantTimeEqual a b = true ↔ a = b := by
  unfold Crypto.constantTimeEqual
  split
  · next hlen =>
      constructor
      · intro h
        exact absurd h (by simp)
      · intro h
        exact absurd (congrArg List.length h) hlen
  · next hlen =>
      rw [beq_iff_eq, foldl_lor_eq_zero]
      rw [not_ne_iff] at hlen
      simp only [true_and]
      exact zipWith_xor_all_zero a b hlen

/-- C2: `NullifierGossip.publish(nullifier, proof)` throws the double-spend
error when the hex key of the nullifier is already in the seen set (leaving
the set untouched — the check precedes the insertion), and otherwise inserts
a record with `peerCount = 1` and `firstSeen = now` and hands the nullifier
message to the broadcast. -/
theorem C2_publish (g : GossipState) (n : Bytes) (proof : Attestation)
    (now : Int) :
    ((g.seenNullifiers.lookup (Crypto.toHex n)).isSome →
      NullifierGossip.publish g n proof now =
        .error "Double-spend detected! Nullifier already published.") ∧
    (g.seenNullifiers.lookup (Crypto.toHex n) = none →
      NullifierGossip.publish g n proof now =
        .ok ({ g with seenNullifiers := g.seenNullifiers ++
                [(Crypto.toHex n, ⟨n, proof, now, 1⟩)] },
             ⟨GossipType.nullifier, some n, some proof, now⟩)) := by
  constructor
  · intro h
    unfold NullifierGossip.publish
    rw [if_pos h]
  · intro h
    unfold NullifierGossip.publish
    rw [if_neg (by rw [h]; simp)]

/-- Witness for C2 at a concrete input: publishing the nullifier `[1, 2, 3]`
into an empty gossip state inserts the record with `peerCount = 1` and
`firstSeen = 77`, and publishing it again on the resulting state throws the
double-spend error. -/
theorem C2_publish_witness :
    NullifierGossip.publish ⟨[], []⟩ [1, 2, 3] ⟨"h", 0, [], []⟩ 77 =
      .ok (⟨[(Crypto.toHex [1, 2, 3],
              ⟨[1, 2, 3], ⟨"h", 0, [], []⟩, 77, 1⟩)], []⟩,
           ⟨GossipType.nullifier, some [1, 2, 3], some ⟨"h", 0, [], []⟩, 77⟩) ∧
    NullifierGossip.publish
        ⟨[(Crypto.toHex [1, 2, 3], ⟨[1, 2, 3], ⟨"h", 0, [], []⟩, 77, 1⟩)], []⟩
        [1, 2, 3] ⟨"h", 0, [], []⟩ 99 =
      .error "Double-spend detected! Nullifier already published." :=
  ⟨(C2_publish ⟨[], []⟩ [1, 2, 3] ⟨"h", 0, [], []⟩ 77).2 (by decide),
   (C2_publish
      ⟨[(Crypto.toHex [1, 2, 3], ⟨[1, 2, 3], ⟨"h", 0, [], []⟩, 77, 1⟩)], []⟩
      [1, 2, 3] ⟨"h", 0, [], []⟩ 99).1 (by decide)⟩

/-- Appending a fresh key to an association list makes it found by lookup. -/
theorem lookup_append_singleton {β : Type} (l : List (String × β)) (k : String)
    (v : β) (h : l.lookup k = none) : (l ++ [(k, v)]).lookup k = some v := by
  induction l with
  | nil => simp [List.lookup]
  | cons p t ih =>
      rw [List.cons_append, List.lookup] at *
      split at h
      · exact absurd h (by simp)
      · simp_all [List.lookup]

/-- Characterization of a successful `ScarceToken.transfer`: it can only
start from an unspent token, it returns the token with `spent := true`, its
package carries the nullifier `generateNullifier(secret, id, now)`, and the
returned gossip state holds a record under that nullifier's hex key (i.e.
`gossip.publish` completed). -/
theorem transfer_ok_characterization
    (tk : TokenState) (blind own : Bytes → Except String Bytes)
    (wts : String → Except String Attestation) (g : GossipState)
    (recipient : Bytes) (now : Nat) (tk2 : TokenState) (g2 : GossipState)
    (pkg : TransferPackage)
    (h : ScarceToken.transfer tk blind own wts g recipient now =
          .ok (tk2, g2, pkg)) :
    tk.spent = false ∧ tk2 = { tk with spent := true } ∧
    pkg.nullifier = Crypto.generateNullifier tk.secret tk.id now ∧
    (g2.seenNullifiers.lookup (Crypto.toHex pkg.nullifier)).isSome := by
  unfold ScarceToken.transfer at h
  split at h
  · exact absurd h (by simp)
  · next hspent =>
      rcases hb : blind recipient with e | commitment
      · simp [hb] at h
      simp only [hb] at h
      rcases ho : own tk.secret with e | oproof
      · simp [ho] at h
      simp only [ho] at h
      rcases hw : wts (Crypto.hashTransferPackage tk.id tk.amount commitment
          (Crypto.generateNullifier tk.secret tk.id now)) with e | proof
      · simp [hw] at h
      simp only [hw] at h
      rcases hp : NullifierGossip.publish g
          (Crypto.generateNullifier tk.secret tk.id now) proof (now : Int)
        with e | gp
      · simp [hp] at h
      simp only [hp] at h
      obtain ⟨gp1, msg⟩ := gp
      simp only [Except.ok.injEq, Prod.mk.injEq] at h
      obtain ⟨htk2, hg2, hpkg⟩ := h
      unfold NullifierGossip.publish at hp
      simp only [] at hp
      split at hp
      · exact absurd hp (by simp)
      · next hnotseen =>
          simp only [Except.ok.injEq, Prod.mk.injEq] at hp
          refine ⟨by simpa using hspent, htk2.symm, by rw [← hpkg], ?_⟩
          rw [← hg2, ← hpkg]
          rw [← hp.1]
          have hnone : (g.seenNullifiers.lookup
              (Crypto.toHex (Crypto.generateNullifier tk.secret tk.id now))) =
              none := Option.not_isSome_iff_eq_none.mp hnotseen
          rw [lookup_append_singleton _ _ _ hnone]
          rfl

/-- C1: for every 32-byte secret, token-id string and timestamp below
`2^64`, `Crypto.generateNullifier(secret, id, t)` is the SHA-256 of
`secret ‖ utf8(id) ‖ be64(t)` — equivalently `Crypto.hash` applied to those
three encodings, where `be64 t` really is the big-endian 64-bit encoding of
`t` (it decodes back to `t`) — and a successful `ScarceToken.transfer`
derives its package nullifier exactly this way from the token's secret, id
and the current time. -/
theorem C1_nullifier_derivation (secret : Bytes) (tokenId : String) (t : Nat)
    (ht : t < 2 ^ 64) :
    Crypto.generateNullifier secret tokenId t =
      Crypto.sha256 (secret ++ Crypto.utf8Bytes tokenId ++ Crypto.be64 t) ∧
    Crypto.generateNullifier secret tokenId t =
      Crypto.hash [.bytes secret, .str tokenId, .num t] ∧
    (Crypto.be64 t).foldl (fun acc b => acc * 256 + b) 0 = t ∧
    (∀ (tk : TokenState) (blind own : Bytes → Except String Bytes)
       (wts : String → Except String Attestation) (g : GossipState)
       (recipient : Bytes) (tk2 : TokenState) (g2 : GossipState)
       (pkg : TransferPackage),
       ScarceToken.transfer tk blind own wts g recipient t =
         .ok (tk2, g2, pkg) →
       pkg.nullifier = Crypto.generateNullifier tk.secret tk.id t) := by
  refine ⟨?_, rfl, ?_, ?_⟩
  · simp [Crypto.generateNullifier, Crypto.hash, Crypto.encodeInput,
      List.append_assoc]
  · simp only [Crypto.be64, List.foldl_cons, List.foldl_nil,
      Nat.shiftRight_eq_div_pow]
    norm_num
    omega
  · intro tk blind own wts g recipient tk2 g2 pkg h
    exact (transfer_ok_characterization tk blind own wts g recipient t
      tk2 g2 pkg h).2.2.1

/-- Witness for C1 at a concrete input: the timestamp 3 is in range and the
nullifier for secret `[1]`, token id `"ab"`, timestamp 3 is the SHA-256 of
the concatenated encodings. -/
theorem C1_nullifier_derivation_witness :
    (3 : Nat) < 2 ^ 64 ∧
    Crypto.generateNullifier [1] "ab" 3 =
      Crypto.sha256 ([1] ++ Crypto.utf8Bytes "ab" ++ Crypto.be64 3) :=
  ⟨by decide, (C1_nullifier_derivation [1] "ab" 3 (by decide)).1⟩

/-- C3: `ScarceToken.transfer` throws `"Token already spent"` whenever the
`spent` flag is already set (so once `spent` is `true` no transfer on that
state succeeds), and every successful transfer starts from an unspent token,
ends with `spent := true` and a gossip state containing the published
nullifier — the flag is set only in the success branch, after blinding,
ownership proof, witness timestamping and `gossip.publish` have all
completed, so a failure at any of those steps yields an error and leaves the
caller's token state unchanged (in particular unspent), and no token is
marked spent without its nullifier having been published. -/
theorem C3_transfer_spent_flag (tk : TokenState)
    (blind own : Bytes → Except String Bytes)
    (wts : String → Except String Attestation) (g : GossipState)
    (recipient : Bytes) (now : Nat) :
    (tk.spent = true →
      ScarceToken.transfer tk blind own wts g recipient now =
        .error "Token already spent") ∧
    (∀ (tk2 : TokenState) (g2 : GossipState) (pkg : TransferPackage),
      ScarceToken.transfer tk blind own wts g recipient now =
        .ok (tk2, g2, pkg) →
      tk.spent = false ∧ tk2.spent = true ∧
      (g2.seenNullifiers.lookup (Crypto.toHex pkg.nullifier)).isSome) := by
  constructor
  · intro h
    unfold ScarceToken.transfer
    rw [if_pos h]
  · intro tk2 g2 pkg h
    obtain ⟨h1, h2, _h3, h4⟩ := transfer_ok_characterization tk blind own wts
      g recipient now tk2 g2 pkg h
    exact ⟨h1, by rw [h2], h4⟩

/-- Witness for C3 at a concrete input: a token whose `spent` flag is set
throws `"Token already spent"` even with all service oracles succeeding. -/
theorem C3_transfer_spent_flag_witness :
    ScarceToken.transfer ⟨"a", 5, [7], true⟩ (fun _ => .ok [1])
      (fun _ => .ok [2]) (fun _ => .ok ⟨"h", 0, [], []⟩) ⟨[], []⟩ [3] 0 =
      .error "Token already spent" :=
  (C3_transfer_spent_flag ⟨"a", 5, [7], true⟩ (fun _ => .ok [1])
    (fun _ => .ok [2]) (fun _ => .ok ⟨"h", 0, [], []⟩) ⟨[], []⟩ [3] 0).1 rfl

/-- C4 counterexample: on the second bundled version of
`NullifierGossip.checkNullifier`, the age of the record does affect the
returned confidence. With one record (`peerCount = 1`, `firstSeen = 0`) and
two connected peers, the peer-count formula of the claim gives `1/2` (as the
current version returns), but the second version returns `1` when queried
10 seconds later — the age term raised the confidence, refuting the claim
for that version. -/
theorem C4_counterexample :
    NullifierGossip.checkNullifier_v2
        ⟨[(Crypto.toHex [1, 2, 3], ⟨[1, 2, 3], ⟨"h", 0, [], []⟩, 0, 1⟩)],
         [⟨"p1", true⟩, ⟨"p2", true⟩]⟩ [1, 2, 3] 10000 = 1 ∧
    NullifierGossip.checkNullifier_v2
        ⟨[(Crypto.toHex [1, 2, 3], ⟨[1, 2, 3], ⟨"h", 0, [], []⟩, 0, 1⟩)],
         [⟨"p1", true⟩, ⟨"p2", true⟩]⟩ [1, 2, 3] 0 = 1 / 2 ∧
    NullifierGossip.checkNullifier
        ⟨[(Crypto.toHex [1, 2, 3], ⟨[1, 2, 3], ⟨"h", 0, [], []⟩, 0, 1⟩)],
         [⟨"p1", true⟩, ⟨"p2", true⟩]⟩ [1, 2, 3] = 1 / 2 := by
  refine ⟨?_, ?_, ?_⟩ <;>
    simp [NullifierGossip.checkNullifier, NullifierGossip.checkNullifier_v2,
      List.lookup] <;>
    norm_num

/-- C4 (amended): both versions of `checkNullifier` return 0 when the hex
key is absent; on a present record the current version returns
`min(peerCount / max(peers, 1), 1)` — independent of the record's age — while
the second bundled version additionally takes the maximum with the age
confidence `min((now − firstSeen) / 10000, 1)`, so there the age can raise
the result. -/
theorem C4_checkNullifier (g : GossipState) (n : Bytes) (now : Int) :
    (g.seenNullifiers.lookup (Crypto.toHex n) = none →
      NullifierGossip.checkNullifier g n = 0 ∧
      NullifierGossip.checkNullifier_v2 g n now = 0) ∧
    (∀ r : NullifierRecord, g.seenNullifiers.lookup (Crypto.toHex n) = some r →
      NullifierGossip.checkNullifier g n =
        min ((r.peerCount : ℚ) / (max g.peerConnections.length 1 : ℚ)) 1 ∧
      NullifierGossip.checkNullifier_v2 g n now =
        max (min ((r.peerCount : ℚ) / (max g.peerConnections.length 1 : ℚ)) 1)
            (min (((now - r.firstSeen : Int) : ℚ) / 10000) 1)) := by
  constructor
  · intro h
    constructor
    · simp [NullifierGossip.checkNullifier, h]
    · simp [NullifierGossip.checkNullifier_v2, h]
  · intro r h
    constructor
    · simp [NullifierGossip.checkNullifier, h]
    · simp [NullifierGossip.checkNullifier_v2, h]

/-- Witness for C4 at a concrete input: on an empty seen set, both versions
return confidence 0. -/
theorem C4_checkNullifier_witness :
    NullifierGossip.checkNullifier ⟨[], []⟩ [9] = 0 ∧
    NullifierGossip.checkNullifier_v2 ⟨[], []⟩ [9] 5 = 0 :=
  (C4_checkNullifier ⟨[], []⟩ [9] 5).1 (by decide)

/-- C5: standard validation rejects with the expiry reason and confidence 0
whenever `now − proof.timestamp` exceeds the configured `maxTokenAge`
(default `24 * 24 * 24 * 3600 * 1000` ms), and the result is the same for
every gossip state and witness oracle — the age gate runs before any gossip
or witness query. -/
theorem C5_age_gate (cfg : TransferValidator.Config) (g gWait : GossipState)
    (witnessCheck : Bytes → ℚ) (witnessVerify : Attestation → Bool)
    (pkg : TransferPackage) (now : Int)
    (h : now - pkg.proof.timestamp > (cfg.maxTokenAge : Int)) :
    TransferValidator.validateTransfer cfg g gWait witnessCheck witnessVerify
        pkg now = ⟨false, 0, .expired⟩ ∧
    (TransferValidator.mkConfig none none none).maxTokenAge =
      24 * 24 * 24 * 3600 * 1000 := by
  refine ⟨?_, rfl⟩
  unfold TransferValidator.validateTransfer
  rw [if_pos h]

/-- Witness for C5 at a concrete input: under the default configuration, a
package whose proof timestamp is `49766400001` ms in the past (one
millisecond beyond the default `maxTokenAge`) is rejected as expired. -/
theorem C5_age_gate_witness :
    TransferValidator.validateTransfer
        (TransferValidator.mkConfig none none none) ⟨[], []⟩ ⟨[], []⟩
        (fun _ => 0) (fun _ => true)
        ⟨"t", 1, [], [2], ⟨"h", 0, [], []⟩, none⟩ 49766400001 =
      ⟨false, 0, .expired⟩ :=
  (C5_age_gate (TransferValidator.mkConfig none none none) ⟨[], []⟩ ⟨[], []⟩
    (fun _ => 0) (fun _ => true) ⟨"t", 1, [], [2], ⟨"h", 0, [], []⟩, none⟩
    49766400001 (by decide)).1

/-- C9 (code bug): the receive path of `src/gossip.ts` has no timestamp
window. A nullifier message whose proof timestamp lies 7 200 000 ms in the
past (far beyond the 3 600 000 ms `maxNullifierAge` of the repository's own
spam-mitigation test, which asserts such a message is rejected with nothing
inserted) is nevertheless inserted into the seen set with `peerCount = 1`
whenever witness verification accepts — and the structural fallback of
`witness.verify` does accept a two-signature attestation less than 24 h old.
The same holds for future-dated timestamps: no `maxTimestampFuture` check
exists in `onReceive`. -/
theorem C9_onReceive_inserts_stale :
    (NullifierGossip.onReceive ⟨[], []⟩ (fun _ => true)
        ⟨GossipType.nullifier, some [4, 5, 6],
         some ⟨"test", 1000000000 - 7200000, ["sig1", "sig2"], ["w1", "w2"]⟩,
         1000000000⟩ 1000000000).1.seenNullifiers =
      [(Crypto.toHex [4, 5, 6],
        ⟨[4, 5, 6],
         ⟨"test", 1000000000 - 7200000, ["sig1", "sig2"], ["w1", "w2"]⟩,
         1000000000, 1⟩)] := by
  decide

/-- C6 counterexample: `fastValidate` does not use the 0.5 gossip threshold
of standard validation. With five connected peers and a nullifier record
seen by a single peer, the gossip confidence is `1/5 ≤ 1/2`, so by the claim
the gossip tier must pass — but `fastValidate` rejects the package as a
gossip double-spend (its threshold is `> 0`). (The code also shows no age
gate and no `witness.checkNullifier` query in `fastValidate`: the function
takes no clock and no nullifier-lookup oracle at all.) -/
theorem C6_counterexample :
    NullifierGossip.checkNullifier
        ⟨[(Crypto.toHex [9, 9], ⟨[9, 9], ⟨"h", 0, [], []⟩, 0, 1⟩)],
         [⟨"p1", true⟩, ⟨"p2", true⟩, ⟨"p3", true⟩, ⟨"p4", true⟩,
          ⟨"p5", true⟩]⟩ [9, 9] = 1 / 5 ∧
    ((1 : ℚ) / 5 ≤ 1 / 2) ∧
    TransferValidator.fastValidate (TransferValidator.mkConfig none none none)
        ⟨[(Crypto.toHex [9, 9], ⟨[9, 9], ⟨"h", 0, [], []⟩, 0, 1⟩)],
         [⟨"p1", true⟩, ⟨"p2", true⟩, ⟨"p3", true⟩, ⟨"p4", true⟩,
          ⟨"p5", true⟩]⟩ (fun _ => true)
        ⟨"t", 1, [], [9, 9], ⟨"h", 0, [], []⟩, none⟩ =
      ⟨false, 0, .doubleSpendGossip⟩ := by
  have hc : NullifierGossip.checkNullifier
      ⟨[(Crypto.toHex [9, 9], ⟨[9, 9], ⟨"h", 0, [], []⟩, 0, 1⟩)],
       [⟨"p1", true⟩, ⟨"p2", true⟩, ⟨"p3", true⟩, ⟨"p4", true⟩,
        ⟨"p5", true⟩]⟩ [9, 9] = 1 / 5 := by
    simp [NullifierGossip.checkNullifier, List.lookup]
    norm_num
  refine ⟨hc, by norm_num, ?_⟩
  unfold TransferValidator.fastValidate
  rw [hc]
  norm_num

/-- C6 (amended): `fastValidate` consists of the gossip check — rejecting as
a double-spend whenever `gossip.checkNullifier(pkg.nullifier)` is positive,
not only above 0.5 — followed by the attestation check `witness.verify`, and
otherwise returns the confidence computed with `waitTime = 0`, accepting
exactly when it reaches `minConfidence`; it performs no age gate and no
`witness.checkNullifier` federation query. -/
theorem C6_fastValidate (cfg : TransferValidator.Config) (g : GossipState)
    (witnessVerify : Attestation → Bool) (pkg : TransferPackage) :
    (NullifierGossip.checkNullifier g pkg.nullifier > 0 →
      TransferValidator.fastValidate cfg g witnessVerify pkg =
        ⟨false, 0, .doubleSpendGossip⟩) ∧
    (NullifierGossip.checkNullifier g pkg.nullifier = 0 →
      witnessVerify pkg.proof = false →
      TransferValidator.fastValidate cfg g witnessVerify pkg =
        ⟨false, 0, .invalidAttestation⟩) ∧
    (NullifierGossip.checkNullifier g pkg.nullifier = 0 →
      witnessVerify pkg.proof = true →
      TransferValidator.fastValidate cfg g witnessVerify pkg =
        (if TransferValidator.computeConfidence
              ⟨g.peerConnections.length,
               TransferValidator.getWitnessFederationDepth, 0⟩ ≥
            cfg.minConfidence then
          ⟨true, TransferValidator.computeConfidence
            ⟨g.peerConnections.length,
             TransferValidator.getWitnessFederationDepth, 0⟩, .accepted⟩
        else
          ⟨false, TransferValidator.computeConfidence
            ⟨g.peerConnections.length,
             TransferValidator.getWitnessFederationDepth, 0⟩,
           .belowThreshold⟩)) := by
  refine ⟨?_, ?_, ?_⟩
  · intro h
    unfold TransferValidator.fastValidate
    rw [if_pos h]
  · intro h hv
    unfold TransferValidator.fastValidate
    rw [h]
    rw [if_neg (by norm_num)]
    rw [if_pos (by simp [hv])]
  · intro h hv
    unfold TransferValidator.fastValidate
    rw [h]
    rw [if_neg (by norm_num)]
    rw [if_neg (by simp [hv])]

/-- Witness for C6 at a concrete input: with no peers, an empty seen set and
an accepting attestation oracle, `fastValidate` under the default
configuration returns confidence `3/10` (peer score 0, witness score `3/10`,
time score 0) and rejects below the `7/10` threshold. -/
theorem C6_fastValidate_witness :
    TransferValidator.fastValidate (TransferValidator.mkConfig none none none)
        ⟨[], []⟩ (fun _ => true) ⟨"t", 1, [], [9], ⟨"h", 0, [], []⟩, none⟩ =
      ⟨false, 3 / 10, .belowThreshold⟩ := by
  have h := (C6_fastValidate (TransferValidator.mkConfig none none none)
    ⟨[], []⟩ (fun _ => true) ⟨"t", 1, [], [9], ⟨"h", 0, [], []⟩, none⟩).2.2
    (by simp [NullifierGossip.checkNullifier, List.lookup]) rfl
  rw [h]
  rw [if_neg (by norm_num [TransferValidator.computeConfidence,
    TransferValidator.mkConfig, TransferValidator.getWitnessFederationDepth])]
  norm_num [TransferValidator.computeConfidence,
    TransferValidator.getWitnessFederationDepth]

/-- C7: `computeConfidence` is
`min(gossipPeers/10, 0.5) + min(witnessDepth/3, 0.3) + min(waitTime/10000,
0.2)`, and when the age gate, both double-spend tiers, the attestation check
and the post-wait re-check all pass, `validateTransfer` accepts exactly when
this value reaches the configured `minConfidence` (default `7/10`). -/
theorem C7_confidence_threshold (cfg : TransferValidator.Config)
    (g gWait : GossipState) (witnessCheck : Bytes → ℚ)
    (witnessVerify : Attestation → Bool) (pkg : TransferPackage) (now : Int)
    (hAge : ¬ now - pkg.proof.timestamp > (cfg.maxTokenAge : Int))
    (hGossip : ¬ NullifierGossip.checkNullifier g pkg.nullifier > 1 / 2)
    (hWitness : ¬ witnessCheck pkg.nullifier > 0)
    (hVerify : witnessVerify pkg.proof = true)
    (hWaitCheck : ¬ (0 < cfg.waitTime ∧
        NullifierGossip.checkNullifier gWait pkg.nullifier > 1 / 2)) :
    (∀ p : ConfidenceParams,
      TransferValidator.computeConfidence p =
        min ((p.gossipPeers : ℚ) / 10) (1 / 2) +
        min ((p.witnessDepth : ℚ) / 3) (3 / 10) +
        min ((p.waitTime : ℚ) / 10000) (1 / 5)) ∧
    ((TransferValidator.validateTransfer cfg g gWait witnessCheck
        witnessVerify pkg now).valid = true ↔
      cfg.minConfidence ≤ TransferValidator.computeConfidence
        ⟨(if 0 < cfg.waitTime then gWait else g).peerConnections.length,
         TransferValidator.getWitnessFederationDepth, cfg.waitTime⟩) ∧
    (TransferValidator.mkConfig none none none).minConfidence = 7 / 10 := by
  refine ⟨fun p => rfl, ?_, rfl⟩
  unfold TransferValidator.validateTransfer
  rw [if_neg hAge]
  rw [if_neg hGossip]
  rw [if_neg hWitness]
  rw [if_neg (not_not_intro hVerify)]
  rw [if_neg hWaitCheck]
  simp only []
  by_cases hc : TransferValidator.computeConfidence
      ⟨(if 0 < cfg.waitTime then gWait else g).peerConnections.length,
       TransferValidator.getWitnessFederationDepth, cfg.waitTime⟩ <
      cfg.minConfidence
  · rw [if_pos hc]
    exact iff_of_false (by simp) (not_le.mpr hc)
  · rw [if_neg hc]
    exact iff_of_true rfl (not_lt.mp hc)

/-- Witness for C7 at a concrete input: with the default configuration, no
peers, empty gossip states, a zero witness-lookup oracle and an accepting
verify oracle, every tier passes and acceptance is equivalent to the
confidence threshold comparison (here `3/10 + 1/2 = 1/2 + 3/10 < 7/10`, so
the transfer is rejected on confidence alone). -/
theorem C7_confidence_threshold_witness :
    (TransferValidator.validateTransfer
        (TransferValidator.mkConfig none none none) ⟨[], []⟩ ⟨[], []⟩
        (fun _ => 0) (fun _ => true)
        ⟨"t", 1, [], [9], ⟨"h", 0, [], []⟩, none⟩ 0).valid = true ↔
      (TransferValidator.mkConfig none none none).minConfidence ≤
        TransferValidator.computeConfidence
          ⟨(if 0 < (TransferValidator.mkConfig none none none).waitTime
              then (⟨[], []⟩ : GossipState) else ⟨[], []⟩).peerConnections.length,
           TransferValidator.getWitnessFederationDepth,
           (TransferValidator.mkConfig none none none).waitTime⟩ :=
  (C7_confidence_threshold (TransferValidator.mkConfig none none none)
    ⟨[], []⟩ ⟨[], []⟩ (fun _ => 0) (fun _ => true)
    ⟨"t", 1, [], [9], ⟨"h", 0, [], []⟩, none⟩ 0
    (by decide)
    (by simp [NullifierGossip.checkNullifier])
    (by norm_num)
    rfl
    (by simp [NullifierGossip.checkNullifier])).2.1

/-- Unrolling the sequential issuer loop: it returns the token of the first
successful attempt, and the all-issuers-failed error when there is none. -/
theorem issueLoop_eq_collectValid (dleq : String → Bytes → Bool) :
    ∀ (pos : Nat) (issuers : List (String × FreebirdAdapter.IssuerReply)),
      FreebirdAdapter.issueLoop dleq pos issuers =
        match (FreebirdAdapter.collectValid dleq pos issuers).head? with
        | some r => .ok r.1
        | none => .error "All configured issuers failed to issue token"
  | _, [] => rfl
  | pos, (url, reply) :: rest => by
      unfold FreebirdAdapter.issueLoop FreebirdAdapter.collectValid
      cases FreebirdAdapter.attempt dleq pos url reply with
      | some r => cases r; rfl
      | none => exact issueLoop_eq_collectValid dleq (pos + 1) rest

/-- C8 counterexample: the MPC version of `issueToken` (the one in
`src/integrations/freebird.ts`) does not surface an error when every
issuer's attempt fails while blind state existed — the internal throw is
caught and the hash fallback is returned. With two configured issuers, both
reachable at init but both failing the issue request, and state present,
the call returns `ok (SHA-256(blinded ‖ "ISSUED"))` instead of an error. -/
theorem C8_counterexample :
    FreebirdAdapter.issueToken_mpc true true
        [("http://issuer1", ⟨true, none⟩), ("http://issuer2", ⟨true, none⟩)]
        (fun _ _ => false) (fun _ => []) [5, 6] =
      .ok (FreebirdAdapter.fallbackToken [5, 6]) ∧
    FreebirdAdapter.fallbackToken [5, 6] =
      Crypto.hash [.bytes [5, 6], .str "ISSUED"] :=
  ⟨rfl, rfl⟩

/-- C8 (amended): the sequential-failover version of `issueToken` bundled in
the repository behaves as the claim states — given reachable metadata and
existing blind state it tries the issuers in configured order, returns the
raw token of the first issuer whose response is a 130-byte token passing
DLEQ verification, without touching later issuers' responses, and throws
when every attempt fails — while the MPC version in
`src/integrations/freebird.ts` returns the hash fallback instead of an
error when no attempt succeeds. -/
theorem C8_issueToken (metadataNonempty stateExists : Bool)
    (issuers : List (String × FreebirdAdapter.IssuerReply))
    (dleq : String → Bytes → Bool)
    (aggregate : List (Nat × Bytes) → Bytes) (blindedValue : Bytes)
    (h : metadataNonempty = true ∧ stateExists = true) :
    (FreebirdAdapter.issueToken_seq metadataNonempty stateExists issuers dleq
        blindedValue =
      match (FreebirdAdapter.validResponses dleq issuers).head? with
      | some r => .ok r.1
      | none => .error "All configured issuers failed to issue token") ∧
    (FreebirdAdapter.validResponses dleq issuers = [] →
      FreebirdAdapter.issueToken_mpc metadataNonempty stateExists issuers
          dleq aggregate blindedValue =
        .ok (FreebirdAdapter.fallbackToken blindedValue)) := by
  obtain ⟨rfl, rfl⟩ := h
  constructor
  · unfold FreebirdAdapter.issueToken_seq
    rw [if_pos ⟨rfl, rfl⟩]
    exact issueLoop_eq_collectValid dleq 0 issuers
  · intro hv
    unfold FreebirdAdapter.issueToken_mpc
    rw [if_pos ⟨rfl, rfl⟩]
    simp only [hv]

/-- Witness for C8 at concrete inputs: with one issuer returning a 130-byte
token accepted by the DLEQ oracle, the sequential version returns exactly
that raw token; and with one issuer failing its request, the MPC version
returns the hash fallback. -/
theorem C8_issueToken_witness :
    FreebirdAdapter.issueToken_seq true true
        [("u1", ⟨true, some (List.replicate 130 7, none)⟩)]
        (fun _ _ => true) [5] = .ok (List.replicate 130 7) ∧
    FreebirdAdapter.issueToken_mpc true true [("u1", ⟨true, none⟩)]
        (fun _ _ => true) (fun _ => []) [5] =
      .ok (FreebirdAdapter.fallbackToken [5]) := by
  constructor
  · rw [(C8_issueToken true true
      [("u1", ⟨true, some (List.replicate 130 7, none)⟩)]
      (fun _ _ => true) (fun _ => []) [5] ⟨rfl, rfl⟩).1]
    rfl
  · exact (C8_issueToken true true [("u1", ⟨true, none⟩)] (fun _ _ => true)
      (fun _ => []) [5] ⟨rfl, rfl⟩).2 rfl

end Scarcity
